import Mathlib

/-
Verification development for the oracle-core operator node.

This file gives a shallow embedding of the parts of the repository that the
checked properties talk about:

  * `core/src/commands/refresh.rs` — the refresh-epoch consensus algorithm
    (`build_refresh_action`, `filtered_oracle_boxes`, `deviation_check`,
    `remove_largest_local_deviation_datapoint`, `build_out_oracle_boxes`);
  * `core/src/cli_commands/bootstrap.rs` — the chained bootstrap sequence
    (`calc_target_balance`, `mint_token`, `perform_bootstrap_chained_transaction`);
  * `core/src/box_kind/buyback_box.rs` — the buyback box wrapper;
  * `core/src/main.rs` — `main_loop_iteration`, the per-tick state derivation.

Modelling conventions:
  * Machine integers (u64, u32, i64) are modelled as `Nat`/`Int`; where the Rust
    code can overflow, underflow or index out of bounds (a panic in a debug
    build), the model returns `none` (or a dedicated panic marker) instead.
  * Fallible Rust code returning `Result` is modelled with `Except`.
  * External collaborators (the ergo-lib box selector, transaction builder,
    wallet signing and node submission) are modelled at their interface level:
    deterministic where the repository only depends on their shape, and
    parametrised by explicit success flags where the repository only depends on
    whether they fail.
  * Contract constants (`min_data_points`, `max_deviation_percent`) live in the
    `contracts` module, which is not part of the sources under verification;
    the consensus functions are therefore parametrised by those two numbers.
    The repository's `default_parameters.rs` fixes them to 4 and 5.
-/

namespace OracleCore

/-- A token: `(token_id, amount)`.  Token ids are opaque; we model them as
naturals.  Amounts are `u64` values in `1..=i64::MAX` in ergo-lib. -/
structure Token where
  tokenId : Nat
  amount : Nat
deriving DecidableEq, Repr

/-- The largest legal ergo token amount (`i64::MAX`). -/
def TokenAmountMax : Nat := 9223372036854775807

/-- An `ErgoBox` as the repository reads it: value, guard script (opaque,
compared by equality), optional token list (`None` when the box carries no
tokens, as in ergo-lib's `Option<BoxTokens>`), and a unique box id.  Registers
that matter to a given function are modelled on the wrapper for that function. -/
structure EBox where
  boxId : Nat
  value : Nat
  ergoTree : Nat
  tokens : Option (List Token)
deriving DecidableEq, Repr

/-- An oracle datapoint box as seen through the `OracleBox` trait in
`refresh.rs`: the submitted rate (R6, u64), the submission epoch counter (R5,
i32), the box value, guard script, operator public key (R4), and the oracle and
reward tokens. -/
structure OracleBoxW where
  rate : Nat
  epochCounter : Int
  value : Nat
  ergoTree : Nat
  publicKey : Nat
  oracleToken : Token
  rewardToken : Token
deriving DecidableEq, Repr

instance : Inhabited OracleBoxW := ⟨⟨0, 0, 0, 0, 0, ⟨0, 0⟩, ⟨0, 0⟩⟩⟩

/-- An `ErgoBoxCandidate`: an output box description before it is realised on
chain.  `R4` holds the register value the repository writes there (the oracle
operator public key for re-emitted oracle boxes). -/
structure ErgoBoxCandidate where
  value : Nat
  ergoTree : Nat
  creationHeight : Nat
  R4 : Option Nat
  tokens : List Token
deriving DecidableEq, Repr

/-- Errors of `commands/refresh.rs` (`PoolCommandError`), restricted to the
variants the embedded code can produce. -/
inductive PoolCommandError where
  | NotEnoughOracleBoxes (found : Nat) (expected : Nat)
  | FailedToReachConsensus
deriving DecidableEq, Repr

/-- The `u64` modulus. -/
def U64Mod : Nat := 18446744073709551616

/-- Rust's `as i64` cast of a `u64` value (two's-complement reinterpretation). -/
def u64_as_i64 (n : Nat) : Int :=
  if n < 9223372036854775808 then (n : Int) else (n : Int) - (U64Mod : Int)

/-- `deviation_check` from `commands/refresh.rs` (lines 99–106), verbatim:

```rust
let num = datapoint_boxes.len();
let max_datapoint = datapoint_boxes[0].rate();
let min_datapoint = datapoint_boxes[num - 1].rate();
let deviation_delta = max_datapoint * (deviation_range as u64) / 100;
min_datapoint >= max_datapoint - deviation_delta
```

Note the code names index `0` of the (ascending-sorted) list `max_datapoint`
and the last index `min_datapoint`.  `none` models a panic: indexing an empty
vector, `u64` overflow of the multiplication, or `u64` underflow of the
subtraction. -/
def deviation_check (deviation_range : Nat) (datapoint_boxes : List OracleBoxW) :
    Option Bool :=
  match datapoint_boxes with
  | [] => none
  | b :: rest =>
    let max_datapoint := b.rate
    let min_datapoint := ((b :: rest).getLast (by simp)).rate
    if U64Mod ≤ max_datapoint * deviation_range then none
    else
      let deviation_delta := max_datapoint * deviation_range / 100
      if max_datapoint < deviation_delta then none
      else some (decide (min_datapoint ≥ max_datapoint - deviation_delta))

/-- `remove_largest_local_deviation_datapoint` from `commands/refresh.rs`
(lines 111–141), verbatim, including the bug on line 124: every element of
`datapoints` is read from `datapoint_boxes[0]`:

```rust
let datapoints: Vec<i64> = datapoint_boxes
    .iter()
    .map(|_| datapoint_boxes[0].rate() as i64)
    .collect();
let front_deviation = datapoints[0] - datapoints[1];
let back_deviation = datapoints[dp_len - 2] - datapoints[dp_len - 1];
if front_deviation >= back_deviation { processed_boxes.drain(0..1); }
else { processed_boxes.pop(); }
```
-/
def remove_largest_local_deviation_datapoint (datapoint_boxes : List OracleBoxW) :
    Except PoolCommandError (List OracleBoxW) :=
  if datapoint_boxes.length ≤ 2 then
    .error .FailedToReachConsensus
  else
    let dp_len := datapoint_boxes.length
    let datapoints : List Int :=
      datapoint_boxes.map fun _ => u64_as_i64 (datapoint_boxes.headD default).rate
    let front_deviation := datapoints.getD 0 0 - datapoints.getD 1 0
    let back_deviation := datapoints.getD (dp_len - 2) 0 - datapoints.getD (dp_len - 1) 0
    if front_deviation ≥ back_deviation then
      .ok datapoint_boxes.tail
    else
      .ok datapoint_boxes.dropLast

/-- The `while !deviation_check(..) { .. }` loop of `filtered_oracle_boxes`
(`commands/refresh.rs` lines 89–95).  One iteration: if the deviation check
passes, the current boxes are the survivors; otherwise one datapoint is removed
(propagating its `FailedToReachConsensus` error), and if the count drops below
`min_data_points` the loop fails with `FailedToReachConsensus`.  `none` models
a panic inside `deviation_check`.

The structural `fuel` argument exists only so the recursion is structural (and
hence computable by the kernel): every iteration removes exactly one box
(`remove_ok_length`), so with `fuel > boxes.length` the `fuel = 0` branch is
unreachable, and `filtered_loop_fuel_irrelevant` shows the result does not
depend on the fuel chosen. -/
def filtered_loop (deviation_range min_data_points : Nat) :
    Nat → List OracleBoxW → Option (Except PoolCommandError (List OracleBoxW))
  | 0, _ => none
  | fuel + 1, boxes =>
    match deviation_check deviation_range boxes with
    | none => none
    | some true => some (.ok boxes)
    | some false =>
      match remove_largest_local_deviation_datapoint boxes with
      | .error e => some (.error e)
      | .ok boxes' =>
        if boxes'.length < min_data_points then
          some (.error .FailedToReachConsensus)
        else
          filtered_loop deviation_range min_data_points fuel boxes'

/-- `filtered_oracle_boxes` from `commands/refresh.rs` (lines 81–97): sort the
oracle boxes by rate ascending (`sort_by_key`, a stable sort, modelled by the
stable `insertionSort`), then run the deviation-filtering loop.  The contract
constants `max_deviation_percent` and `min_data_points` (read from
`RefreshContract::new()` in the code) are passed as parameters.  The function
never reads the boxes' epoch counters. -/
def filtered_oracle_boxes (deviation_range min_data_points : Nat)
    (oracle_boxes : List OracleBoxW) :
    Option (Except PoolCommandError (List OracleBoxW)) :=
  filtered_loop deviation_range min_data_points (oracle_boxes.length + 1)
    (List.insertionSort (fun a b => a.rate ≤ b.rate) oracle_boxes)

/-- The prefix of `build_refresh_action` from `commands/refresh.rs` (lines
34–48) that decides between failure and action construction:

```rust
let valid_in_oracle_boxes = filtered_oracle_boxes(in_oracle_boxes);
if valid_in_oracle_boxes.len() as u32 >= RefreshContract::new().min_data_points() {
    return Err(PoolCommandError::NotEnoughOracleBoxes { .. });
}
let rate = calc_pool_rate(valid_in_oracle_boxes.clone()); // todo!()
```

Note the comparison: the `NotEnoughOracleBoxes` error is returned when the
survivor count is `>=` `min_data_points`.  When the guard is passed the code
immediately calls `calc_pool_rate`, whose body is `todo!()` — an unconditional
panic, modelled as `none`. -/
def build_refresh_action (min_data_points deviation_range : Nat)
    (in_oracle_boxes : List OracleBoxW) :
    Option (Except PoolCommandError Unit) :=
  match filtered_oracle_boxes deviation_range min_data_points in_oracle_boxes with
  | none => none
  | some (.error e) => some (.error e)
  | some (.ok valid_in_oracle_boxes) =>
    if valid_in_oracle_boxes.length ≥ min_data_points then
      some (.error (.NotEnoughOracleBoxes valid_in_oracle_boxes.length min_data_points))
    else
      none

/-- The deviation test as the specification words it (spec section 4.2 step 4):
`max` is the largest rate, `min` the smallest,
`allowed_delta = max * max_deviation_percent / 100`, pass iff
`min >= max - allowed_delta`.  For an ascending-sorted list the smallest rate
is the head and the largest is the last element.  Written only for comparison
with `deviation_check` above. -/
def spec_deviation_check (deviation_range : Nat) (sorted_rates : List Nat) : Bool :=
  match sorted_rates with
  | [] => false
  | r :: rest =>
    let mn := r
    let mx := (r :: rest).getLast (by simp)
    decide (mn ≥ mx - mx * deviation_range / 100)

/-- One output oracle box of `build_out_oracle_boxes` (`commands/refresh.rs`
lines 169–183): same value, same guard script, R4 set to the input box's
public key, the oracle token copied, and the reward token with amount
`checked_add(1).unwrap()` — `none` models the unwrap panic when the amount
would exceed `i64::MAX`. -/
def build_out_oracle_box (in_ob : OracleBoxW) (creation_height : Nat) :
    Option ErgoBoxCandidate :=
  if in_ob.rewardToken.amount + 1 ≤ TokenAmountMax then
    some
      { value := in_ob.value
        ergoTree := in_ob.ergoTree
        creationHeight := creation_height
        R4 := some in_ob.publicKey
        tokens := [in_ob.oracleToken,
                   { tokenId := in_ob.rewardToken.tokenId
                     amount := in_ob.rewardToken.amount + 1 }] }
  else
    none

/-- `build_out_oracle_boxes` from `commands/refresh.rs` (lines 163–186): every
surviving oracle box is re-emitted through `build_out_oracle_box`; the
`collect::<Result<..>>` short-circuits on the first failure. -/
def build_out_oracle_boxes (valid_oracle_boxes : List OracleBoxW)
    (creation_height : Nat) : Option (List ErgoBoxCandidate) :=
  match valid_oracle_boxes with
  | [] => some []
  | b :: rest => do
    let c ← build_out_oracle_box b creation_height
    let cs ← build_out_oracle_boxes rest creation_height
    some (c :: cs)

/-- Marker for a computation that either panics or returns a value; used where
the Rust code calls `.unwrap()` on collaborator data. -/
inductive PanicOr (α : Type) where
  | panicked
  | value (a : α)
deriving DecidableEq, Repr

/-- `BuybackBoxWrapper` from `box_kind/buyback_box.rs`: a raw box together
with the configured reward token id. -/
structure BuybackBoxWrapper where
  ergo_box : EBox
  reward_token_id : Nat
deriving DecidableEq, Repr

/-- `BuybackBoxWrapper::new` (`box_kind/buyback_box.rs` lines 24–29), verbatim:

```rust
pub fn new(ergo_box: ErgoBox, reward_token_id: RewardTokenId) -> Self {
    Self { ergo_box, reward_token_id }
}
```

It is a plain constructor: it performs no validation and cannot fail. -/
def BuybackBoxWrapper.new (ergo_box : EBox) (reward_token_id : Nat) :
    BuybackBoxWrapper :=
  { ergo_box := ergo_box, reward_token_id := reward_token_id }

/-- `BuybackBoxWrapper::reward_token` (`box_kind/buyback_box.rs` lines 35–45):

```rust
self.ergo_box.tokens.as_ref().unwrap().get(1).map(|token| SpecToken { .. })
```

The `.unwrap()` panics when the wrapped box has no tokens (`tokens == None`);
the panic is modelled as `.panicked`. -/
def BuybackBoxWrapper.reward_token (w : BuybackBoxWrapper) :
    PanicOr (Option Token) :=
  match w.ergo_box.tokens with
  | none => .panicked
  | some ts =>
    .value ((ts.get? 1).map fun t => { tokenId := t.tokenId, amount := t.amount })

/-- `PoolState` from `state.rs` as used by `main.rs`: either the pool needs
bootstrapping or a live epoch state was read. -/
inductive PoolState (σ : Type) where
  | NeedsBootstrap
  | LiveEpoch (s : σ)
deriving DecidableEq, Repr

/-- The pool-state derivation of `main_loop_iteration` (`main.rs` lines
184–187), verbatim:

```rust
let pool_state = match op.get_live_epoch_state() {
    Ok(live_epoch_state) => PoolState::LiveEpoch(live_epoch_state),
    Err(_) => PoolState::NeedsBootstrap,
};
```
-/
def pool_state_for_tick {ε σ : Type} (r : Except ε σ) : PoolState σ :=
  match r with
  | .ok live_epoch_state => .LiveEpoch live_epoch_state
  | .error _ => .NeedsBootstrap

/-- The collaborators consumed by one tick of the main loop (`main.rs` lines
181–201).  `get_live_epoch_state`, `process`, `build_action`,
`execute_action` and the node queries live in modules outside the verified
sources; they are modelled as the interface values the tick reads. -/
structure TickEnv (ε ε2 σ Cmd Action : Type) where
  current_block_height : Except ε Nat
  get_live_epoch_state : Except ε2 σ
  process : PoolState σ → Nat → Except ε (Option Cmd)
  get_change_address_from_node : Except ε Nat
  build_action : Cmd → Nat → Nat → Except ε Action
  execute_action : Action → Except ε Unit

/-- The tail of `main_loop_iteration` after the pool state has been derived
(`main.rs` lines 188–200): run `process`; when it yields a command, fetch the
change address, build the action and (unless read-only) execute it. -/
def tick_after_state {ε ε2 σ Cmd Action : Type}
    (env : TickEnv ε ε2 σ Cmd Action) (read_only : Bool)
    (pool_state : PoolState σ) (height : Nat) : Except ε Unit := do
  match ← env.process pool_state height with
  | some cmd =>
    let change_address ← env.get_change_address_from_node
    let action ← env.build_action cmd height change_address
    if !read_only then env.execute_action action else pure ()
  | none => pure ()

/-- `main_loop_iteration` from `main.rs` (lines 181–201): read the current
height, derive the pool state from `get_live_epoch_state` (errors mapped to
`NeedsBootstrap`, not propagated), then act on it. -/
def main_loop_iteration {ε ε2 σ Cmd Action : Type}
    (env : TickEnv ε ε2 σ Cmd Action) (read_only : Bool) : Except ε Unit := do
  let height ← env.current_block_height
  tick_after_state env read_only (pool_state_for_tick env.get_live_epoch_state) height

/-- Errors of `cli_commands/bootstrap.rs` (`BootstrapError`), restricted to the
variants the embedded code can produce, plus `Panic` for the `.unwrap()` calls
in the pool-box section. -/
inductive BootstrapError where
  | TxBuilder
  | ErgoBoxCandidateBuilder
  | Node
  | BoxSelector
  | BoxValue
  | UpdateContract
  | Panic
deriving DecidableEq, Repr

/-- Observable effects of the bootstrap chain: a transaction was signed by the
wallet, or a transaction was submitted to the node.  Transactions are numbered
0–7 in the order the code creates them (six mints, pool box, refresh box). -/
inductive BootstrapEvent where
  | signed (i : Nat)
  | submitted (i : Nat)
deriving DecidableEq, Repr

/-- The bootstrap computation: fallible, with a trace of signing and
submission events. -/
abbrev BootM (α : Type) := EStateM BootstrapError (List BootstrapEvent) α

/-- Lift a `?`-propagated `Result` into the bootstrap computation. -/
def liftE {α : Type} (x : Except BootstrapError α) : BootM α :=
  fun s =>
    match x with
    | .ok a => .ok a s
    | .error e => .error e s

/-- The largest legal box value (`i64::MAX`), bounds of ergo-lib `BoxValue`. -/
def BoxValueMax : Nat := 9223372036854775807

/-- ergo-lib `BoxValue::checked_mul_u32`: errors when the product leaves the
legal box-value range `1..=i64::MAX`. -/
def box_value_checked_mul_u32 (v n : Nat) : Except BootstrapError Nat :=
  if 1 ≤ v * n ∧ v * n ≤ BoxValueMax then .ok (v * n) else .error .BoxValue

/-- ergo-lib `BoxValue::checked_add`: errors when the sum leaves the legal
box-value range. -/
def box_value_checked_add (a b : Nat) : Except BootstrapError Nat :=
  if 1 ≤ a + b ∧ a + b ≤ BoxValueMax then .ok (a + b) else .error .BoxValue

/-- The values captured by the closures inside
`perform_bootstrap_chained_transaction`: box value per output, transaction
fee, the funding wallet's guard script, the change address script, and the
current height. -/
structure MintContext where
  erg_value_per_box : Nat
  tx_fee : Nat
  wallet_pk_ergo_tree : Nat
  change_address : Nat
  height : Nat
deriving DecidableEq, Repr

/-- `calc_target_balance` from `cli_commands/bootstrap.rs` (lines 169–173),
verbatim:

```rust
let b = erg_value_per_box.checked_mul_u32(num_transactions_left)?;
let fees = tx_fee.checked_mul_u32(num_transactions_left)?;
b.checked_add(&fees)
```
-/
def calc_target_balance (ctx : MintContext) (num_transactions_left : Nat) :
    Except BootstrapError Nat := do
  let b ← box_value_checked_mul_u32 ctx.erg_value_per_box num_transactions_left
  let fees ← box_value_checked_mul_u32 ctx.tx_fee num_transactions_left
  box_value_checked_add b fees

/-- Total nanoErg value of a list of boxes. -/
def sum_values (boxes : List EBox) : Nat := (boxes.map EBox.value).sum

/-- Total amount of the token `tid` held by a list of boxes. -/
def token_amount_in (boxes : List EBox) (tid : Nat) : Nat :=
  (boxes.map fun b =>
    (((b.tokens.getD []).filter fun t => t.tokenId = tid).map Token.amount).sum).sum

/-- Whether an accumulated selection covers a value target and a list of token
targets. -/
def selection_covers (acc : List EBox) (target : Nat) (target_tokens : List Token) :
    Bool :=
  decide (target ≤ sum_values acc) &&
    target_tokens.all fun t => decide (t.amount ≤ token_amount_in acc t.tokenId)

/-- Greedy accumulation step of the box selector. -/
def select_go (target : Nat) (target_tokens : List Token) (acc : List EBox) :
    List EBox → Except BootstrapError (List EBox)
  | [] => if selection_covers acc target target_tokens then .ok acc else .error .BoxSelector
  | b :: rest =>
    if selection_covers acc target target_tokens then .ok acc
    else select_go target target_tokens (acc ++ [b]) rest

/-- Interface model of ergo-lib `SimpleBoxSelector::select`: walk the
available boxes in order, accumulating until the value target and every token
target are covered; error when the boxes run out first. -/
def select_boxes (inputs : List EBox) (target : Nat) (target_tokens : List Token) :
    Except BootstrapError (List EBox) :=
  select_go target target_tokens [] inputs

/-- Opaque script id of the miner-fee contract, used for the fee output the
transaction builder appends. -/
def FeeErgoTree : Nat := 999999999

/-- An unsigned transaction as the ergo-lib `TxBuilder` produces it: the
selected inputs, the caller-supplied output candidates, the computed change
candidates, and the fee candidate. -/
structure UnsignedTx where
  inputs : List EBox
  output_candidates : List ErgoBoxCandidate
  change_candidates : List ErgoBoxCandidate
  fee_candidate : ErgoBoxCandidate
deriving DecidableEq, Repr

/-- A signed transaction: the unsigned transaction's parts plus its realised
output boxes. -/
structure SignedTx where
  inputs : List EBox
  output_candidates : List ErgoBoxCandidate
  change_candidates : List ErgoBoxCandidate
  fee_candidate : ErgoBoxCandidate
  outputs : List EBox
deriving DecidableEq, Repr

/-- Interface model of ergo-lib `TxBuilder::{new, build}`: value conservation
`sum(inputs) = sum(candidates) + change + fee` with non-negative change; a
change box guarded by the change address is added when the change is non-zero.
(Token change is not tracked: no bootstrap step leaves surplus tokens behind.) -/
def tx_builder_build (tx_fee change_address : Nat) (selected : List EBox)
    (output_candidates : List ErgoBoxCandidate) (height : Nat) :
    Except BootstrapError UnsignedTx :=
  let in_val := sum_values selected
  let out_val := (output_candidates.map ErgoBoxCandidate.value).sum + tx_fee
  if in_val < out_val then .error .TxBuilder
  else
    let change := in_val - out_val
    .ok
      { inputs := selected
        output_candidates := output_candidates
        change_candidates :=
          if change = 0 then []
          else [{ value := change, ergoTree := change_address,
                  creationHeight := height, R4 := none, tokens := [] }]
        fee_candidate :=
          { value := tx_fee, ergoTree := FeeErgoTree,
            creationHeight := height, R4 := none, tokens := [] } }

/-- Realise the outputs of transaction number `tx_index`: candidates become
boxes with deterministic fresh ids.  (Real box ids are hashes; only freshness
and distinctness matter to the chain logic.) -/
def realize_outputs (tx_index : Nat) (u : UnsignedTx) : SignedTx :=
  { inputs := u.inputs
    output_candidates := u.output_candidates
    change_candidates := u.change_candidates
    fee_candidate := u.fee_candidate
    outputs :=
      (u.output_candidates ++ u.change_candidates ++ [u.fee_candidate]).enum.map
        fun p =>
          { boxId := 1000 * (tx_index + 1) + p.1
            value := p.2.value
            ergoTree := p.2.ergoTree
            tokens := if p.2.tokens = [] then none else some p.2.tokens } }

/-- External collaborators of the bootstrap: the funding wallet's unspent
boxes, and per-transaction success of the node's signing, submission and
update-contract construction. -/
structure BootstrapEnv where
  unspent_wallet_boxes : List EBox
  sign_ok : Nat → Bool
  submit_ok : Nat → Bool
  update_contract_ok : Bool

/-- `tx_signer.sign_transaction_with_inputs`: external wallet signing.  On
success the signed transaction is recorded in the trace. -/
def sign_tx (env : BootstrapEnv) (tx_index : Nat) (u : UnsignedTx) :
    BootM SignedTx :=
  fun s =>
    if env.sign_ok tx_index then
      .ok (realize_outputs tx_index u) (s ++ [.signed tx_index])
    else
      .error .Node s

/-- `submit_tx.submit_transaction`: external node submission, recorded in the
trace on success. -/
def submit_transaction (env : BootstrapEnv) (tx_index : Nat) (_tx : SignedTx) :
    BootM Unit :=
  fun s =>
    if env.submit_ok tx_index then
      .ok () (s ++ [.submitted tx_index])
    else
      .error .Node s

/-- `filter_tx_outputs` from `cli_commands/bootstrap.rs` (lines 160–166): keep
only the outputs guarded by the funding wallet's key. -/
def filter_tx_outputs (guard : Nat) (outputs : List EBox) : List EBox :=
  outputs.filter fun b => b.ergoTree = guard

/-- `mint_token` from `cli_commands/bootstrap.rs` (lines 178–220): select
inputs worth `E(num_transactions_left)`, mint a token whose id is the first
selected box's id, emit a token box (value `erg_value_per_box`, guarded by
`different_token_box_guard` or the wallet key) and a remainder box worth
`E(num_transactions_left - 1)` guarded by the wallet key, build and sign the
transaction, and decrement the transaction counter.  The returned `Nat` is the
decremented counter (the code mutates it through `&mut`). -/
def mint_token (env : BootstrapEnv) (ctx : MintContext) (input_boxes : List EBox)
    (num_transactions_left : Nat) (token_amount : Nat)
    (different_token_box_guard : Option Nat) :
    BootM (Token × SignedTx × Nat) := do
  let target_balance ← liftE (calc_target_balance ctx num_transactions_left)
  let selected ← liftE (select_boxes input_boxes target_balance [])
  match selected with
  | [] => liftE (.error .BoxSelector)
  | first :: _ =>
    let token : Token := { tokenId := first.boxId, amount := token_amount }
    let token_box_guard := different_token_box_guard.getD ctx.wallet_pk_ergo_tree
    let token_box : ErgoBoxCandidate :=
      { value := ctx.erg_value_per_box, ergoTree := token_box_guard,
        creationHeight := ctx.height, R4 := none, tokens := [token] }
    let remaining_value ← liftE (calc_target_balance ctx (num_transactions_left - 1))
    let remaining_funds : ErgoBoxCandidate :=
      { value := remaining_value, ergoTree := ctx.wallet_pk_ergo_tree,
        creationHeight := ctx.height, R4 := none, tokens := [] }
    let output_candidates := [token_box, remaining_funds]
    let unsigned ← liftE (tx_builder_build ctx.tx_fee ctx.change_address
      selected output_candidates ctx.height)
    let signed ← sign_tx env (8 - num_transactions_left) unsigned
    pure (token, signed, num_transactions_left - 1)

/-- Modelled from the spec: `make_pool_box_candidate` lives in the `box_kind`
module, which is not among the verified sources.  Per the spec's data model,
the pool box carries the pool NFT and the reward-token pool, holds
`erg_value_per_box`, is guarded by the pool contract, and its registers hold
the initial aggregated rate (0 at bootstrap) and epoch counter. -/
def make_pool_box_candidate (pool_contract_tree : Nat) (datapoint : Nat)
    (pool_nft reward_tokens : Token) (value height : Nat) : ErgoBoxCandidate :=
  { value := value, ergoTree := pool_contract_tree, creationHeight := height,
    R4 := some datapoint, tokens := [pool_nft, reward_tokens] }

/-- Modelled from the spec: `make_refresh_box_candidate` lives in the
`box_kind` module, which is not among the verified sources.  Per the spec's
data model, the refresh box carries the refresh NFT, holds
`erg_value_per_box`, and is guarded by the refresh contract. -/
def make_refresh_box_candidate (refresh_contract_tree : Nat)
    (refresh_nft : Token) (value height : Nat) : ErgoBoxCandidate :=
  { value := value, ergoTree := refresh_contract_tree, creationHeight := height,
    R4 := none, tokens := [refresh_nft] }

/-- `UpdateContract::new(&config.update_contract_parameters, &token_ids)?`
(`bootstrap.rs` line 296): the update contract lives in the external
`contracts` module; only whether its construction succeeds matters here. -/
def update_contract_new (contract_ok : Bool) : Except BootstrapError Unit :=
  if contract_ok then .ok () else .error .UpdateContract

/-- `reward_token.amount.checked_sub(&oracle_token.amount).unwrap()`
(`bootstrap.rs` lines 371–378): token amounts are valid in `1..=i64::MAX`, so
the checked subtraction yields `Some` exactly when the difference is positive;
the `.unwrap()` of `None` is a panic. -/
def token_amount_checked_sub_get (a b : Nat) : Except BootstrapError Nat :=
  if b < a then .ok (a - b) else .error .Panic

/-- `outputs.iter().find(|b| .. tokens contain `tid` ..).unwrap()`
(`bootstrap.rs` lines 404–415 and 485–498): find the output box carrying a
given token id; the `.unwrap()` of `None` is a panic. -/
def find_box_with_token (outputs : List EBox) (tid : Nat) :
    Except BootstrapError EBox :=
  match outputs.find? (fun b => (b.tokens.getD []).any fun t => t.tokenId = tid) with
  | some b => .ok b
  | none => .error .Panic

/-- The configuration fields of `BootstrapConfig` that
`perform_bootstrap_chained_transaction` reads: the guard scripts derived from
the configured addresses and contracts, and the quantities to mint. -/
structure BootstrapConfigM where
  wallet_address_script : Nat
  oracle_tokens_address_script : Nat
  update_contract_tree : Nat
  pool_contract_tree : Nat
  refresh_contract_tree : Nat
  ballot_tokens_quantity : Nat
  oracle_tokens_quantity : Nat
  reward_tokens_quantity : Nat
deriving DecidableEq, Repr

/-- The minted token ids returned on success (`OracleConfigFields`). -/
structure OracleConfigFields where
  pool_nft : Nat
  refresh_nft : Nat
  update_nft : Nat
  oracle_token : Nat
  ballot_token : Nat
  reward_token : Nat
deriving DecidableEq, Repr

/-- The values `perform_bootstrap_chained_transaction` destructures from its
input and captures in its closures. -/
def bootstrap_mint_context (cfg : BootstrapConfigM)
    (tx_fee erg_value_per_box change_address height : Nat) : MintContext :=
  { erg_value_per_box := erg_value_per_box, tx_fee := tx_fee,
    wallet_pk_ergo_tree := cfg.wallet_address_script,
    change_address := change_address, height := height }

/-- `perform_bootstrap_chained_transaction` from `cli_commands/bootstrap.rs`
(lines 107–546): starting from `num_transactions_left = 8`, mint the pool NFT,
refresh NFT, ballot tokens, update NFT, oracle tokens and reward tokens — each
mint consuming the wallet-guarded outputs of its predecessor — then build and
sign the pool-box and refresh-box creation transactions, and only then submit
all eight signed transactions to the node in creation order. -/
def perform_bootstrap_chained_transaction (env : BootstrapEnv)
    (cfg : BootstrapConfigM) (tx_fee erg_value_per_box change_address height : Nat) :
    BootM OracleConfigFields := do
  let ctx : MintContext :=
    bootstrap_mint_context cfg tx_fee erg_value_per_box change_address height
  -- Mint pool NFT
  let unspent_boxes := env.unspent_wallet_boxes
  let target_balance ← liftE (calc_target_balance ctx 8)
  let box_selection ← liftE (select_boxes unspent_boxes target_balance [])
  let (pool_nft_token, signed_mint_pool_nft_tx, n7) ←
    mint_token env ctx box_selection 8 1 none
  -- Mint refresh NFT
  let inputs := filter_tx_outputs ctx.wallet_pk_ergo_tree signed_mint_pool_nft_tx.outputs
  let (refresh_nft_token, signed_mint_refresh_nft_tx, n6) ←
    mint_token env ctx inputs n7 1 none
  -- Mint ballot tokens
  let inputs := filter_tx_outputs ctx.wallet_pk_ergo_tree signed_mint_refresh_nft_tx.outputs
  let (ballot_token, signed_mint_ballot_tokens_tx, n5) ←
    mint_token env ctx inputs n6 cfg.ballot_tokens_quantity none
  -- UpdateContract::new (external contracts module) may fail
  let _ ← liftE (update_contract_new env.update_contract_ok)
  -- Mint update NFT
  let inputs := filter_tx_outputs ctx.wallet_pk_ergo_tree signed_mint_ballot_tokens_tx.outputs
  let (update_nft_token, signed_mint_update_nft_tx, n4) ←
    mint_token env ctx inputs n5 1 (some cfg.update_contract_tree)
  -- Mint oracle tokens
  let inputs := filter_tx_outputs ctx.wallet_pk_ergo_tree signed_mint_update_nft_tx.outputs
  let (oracle_token, signed_mint_oracle_tokens_tx, n3) ←
    mint_token env ctx inputs n4 cfg.oracle_tokens_quantity
      (some cfg.oracle_tokens_address_script)
  -- Mint reward tokens
  let inputs := filter_tx_outputs ctx.wallet_pk_ergo_tree signed_mint_oracle_tokens_tx.outputs
  let (reward_token, signed_mint_reward_tokens_tx, n2) ←
    mint_token env ctx inputs n3 cfg.reward_tokens_quantity none
  -- Create pool box: reward_token.amount.checked_sub(&oracle_token.amount).unwrap()
  let reward_tokens_for_pool_amount ←
    liftE (token_amount_checked_sub_get reward_token.amount oracle_token.amount)
  let pool_box_candidate := make_pool_box_candidate cfg.pool_contract_tree 0
    pool_nft_token
    { tokenId := reward_token.tokenId, amount := reward_tokens_for_pool_amount }
    erg_value_per_box height
  let remaining_value ← liftE (calc_target_balance ctx (n2 - 1))
  let remainder : ErgoBoxCandidate :=
    { value := remaining_value, ergoTree := ctx.wallet_pk_ergo_tree,
      creationHeight := height, R4 := none, tokens := [] }
  let output_candidates := [pool_box_candidate, remainder]
  let target_balance ← liftE (calc_target_balance ctx n2)
  let inputs := filter_tx_outputs ctx.wallet_pk_ergo_tree signed_mint_reward_tokens_tx.outputs
  let box_with_pool_nft ←
    liftE (find_box_with_token signed_mint_pool_nft_tx.outputs pool_nft_token.tokenId)
  let inputs := inputs ++ [box_with_pool_nft]
  let box_selection ← liftE (select_boxes inputs target_balance
    [pool_nft_token, reward_token])
  let unsigned ← liftE (tx_builder_build tx_fee change_address box_selection
    output_candidates height)
  let signed_pool_box_tx ← sign_tx env 6 unsigned
  let n1 := n2 - 1
  -- Create refresh box
  let refresh_box_candidate := make_refresh_box_candidate cfg.refresh_contract_tree
    refresh_nft_token erg_value_per_box height
  let output_candidates := [refresh_box_candidate]
  let target_balance ← liftE (calc_target_balance ctx n1)
  let inputs := filter_tx_outputs ctx.wallet_pk_ergo_tree signed_pool_box_tx.outputs
  let box_with_refresh_nft ←
    liftE (find_box_with_token signed_mint_refresh_nft_tx.outputs
      refresh_nft_token.tokenId)
  let inputs := inputs ++ [box_with_refresh_nft]
  let box_selection ← liftE (select_boxes inputs target_balance [refresh_nft_token])
  let unsigned ← liftE (tx_builder_build tx_fee change_address box_selection
    output_candidates height)
  let signed_refresh_box_tx ← sign_tx env 7 unsigned
  -- Submit the whole chain, in creation order
  submit_transaction env 0 signed_mint_pool_nft_tx
  submit_transaction env 1 signed_mint_refresh_nft_tx
  submit_transaction env 2 signed_mint_ballot_tokens_tx
  submit_transaction env 3 signed_mint_update_nft_tx
  submit_transaction env 4 signed_mint_oracle_tokens_tx
  submit_transaction env 5 signed_mint_reward_tokens_tx
  submit_transaction env 6 signed_pool_box_tx
  submit_transaction env 7 signed_refresh_box_tx
  pure
    { pool_nft := pool_nft_token.tokenId
      refresh_nft := refresh_nft_token.tokenId
      update_nft := update_nft_token.tokenId
      oracle_token := oracle_token.tokenId
      ballot_token := ballot_token.tokenId
      reward_token := reward_token.tokenId }

/-- A concrete oracle datapoint box used in the concrete-input theorems:
submitted rate `r`, submission epoch counter `ec`, and fixed value, guard,
operator key, oracle token and reward token. -/
def sampleOracleBox (r : Nat) (ec : Int) : OracleBoxW :=
  { rate := r, epochCounter := ec, value := 1000000, ergoTree := 7,
    publicKey := 9, oracleToken := { tokenId := 11, amount := 1 },
    rewardToken := { tokenId := 12, amount := 5 } }

instance : IsTotal OracleBoxW (fun a b => a.rate ≤ b.rate) :=
  ⟨fun a b => Nat.le_total a.rate b.rate⟩

instance : IsTrans OracleBoxW (fun a b => a.rate ≤ b.rate) :=
  ⟨fun _ _ _ h1 h2 => Nat.le_trans h1 h2⟩

/-- A concrete funding box used in the bootstrap witnesses. -/
def sampleFundingBox : EBox :=
  { boxId := 5, value := 16000000, ergoTree := 1, tokens := none }

/-- A bootstrap environment in which every collaborator succeeds, funded with
a single box worth exactly `E(8) = 8 * (1000000 + 1000000)`. -/
def sampleBootstrapEnv : BootstrapEnv :=
  { unspent_wallet_boxes := [sampleFundingBox]
    sign_ok := fun _ => true
    submit_ok := fun _ => true
    update_contract_ok := true }

/-- The mint context used in the bootstrap witnesses: box value and fee of
1000000 nanoErg (`SAFE_USER_MIN`), wallet script `1`, change script `2`,
height 10. -/
def sampleMintContext : MintContext :=
  { erg_value_per_box := 1000000, tx_fee := 1000000,
    wallet_pk_ergo_tree := 1, change_address := 2, height := 10 }

/-- The trace of the first `m` signing events, in transaction order. -/
def signed_events (m : Nat) : List BootstrapEvent :=
  (List.range m).map .signed

/-- The trace of the first `k` submission events, in transaction order. -/
def submitted_events (k : Nat) : List BootstrapEvent :=
  (List.range k).map .submitted

/-- The event trace left by a bootstrap computation, successful or not. -/
def result_trace {α : Type} :
    EStateM.Result BootstrapError (List BootstrapEvent) α → List BootstrapEvent
  | .ok _ s => s
  | .error _ s => s

/-- A successful `remove_largest_local_deviation_datapoint` removes exactly one
box. -/
theorem remove_ok_length (boxes out : List OracleBoxW)
    (h : remove_largest_local_deviation_datapoint boxes = .ok out) :
    out.length + 1 = boxes.length := by
  unfold remove_largest_local_deviation_datapoint at h
  by_cases hl : boxes.length ≤ 2
  · simp [hl] at h
  · simp only [hl, if_false] at h
    split at h
    · cases h
      have : boxes ≠ [] := by
        intro he
        rw [he] at hl
        simp at hl
      simp [List.length_tail]
      omega
    · cases h
      simp [List.length_dropLast]
      omega

/-- The deviation-filtering loop does not depend on the fuel, as long as the
fuel exceeds the number of boxes. -/
theorem filtered_loop_fuel_irrelevant (deviation_range min_data_points : Nat) :
    ∀ (f1 f2 : Nat) (boxes : List OracleBoxW),
      boxes.length < f1 → boxes.length < f2 →
      filtered_loop deviation_range min_data_points f1 boxes
        = filtered_loop deviation_range min_data_points f2 boxes := by
  intro f1
  induction f1 with
  | zero => intro f2 boxes h1 h2; omega
  | succ f ih =>
    intro f2 boxes h1 h2
    cases f2 with
    | zero => omega
    | succ g =>
      simp only [filtered_loop]
      cases deviation_check deviation_range boxes with
      | none => rfl
      | some b =>
        cases b with
        | true => rfl
        | false =>
          cases hrem : remove_largest_local_deviation_datapoint boxes with
          | error e => rfl
          | ok boxes2 =>
            have hlen := remove_ok_length boxes boxes2 hrem
            by_cases hmin : boxes2.length < min_data_points
            · simp [hmin]
            · simp only [hmin, if_false]
              exact ih g boxes2 (by omega) (by omega)

/-- C1: the claim says `build_refresh_action` fails with `NotEnoughOracleBoxes`
exactly when the survivor count is strictly below `min_data_points` and
proceeds otherwise.  The code has the comparison inverted
(`refresh.rs` line 38: `if len >= min_data_points { return Err(..) }`):
with `min_data_points = 4` (the repository default), four agreeing survivors
yield `NotEnoughOracleBoxes { found: 4, expected: 4 }`, while three survivors
pass the guard and run into the `todo!()` of `calc_pool_rate`
(modelled as `none`) instead of returning the error. -/
theorem c1_refresh_min_data_points_guard_inverted :
    build_refresh_action 4 5
        [sampleOracleBox 100 1, sampleOracleBox 100 1,
         sampleOracleBox 100 1, sampleOracleBox 100 1]
      = some (.error (.NotEnoughOracleBoxes 4 4))
    ∧ build_refresh_action 4 5
        [sampleOracleBox 100 1, sampleOracleBox 100 1, sampleOracleBox 100 1]
      = none := by
  exact ⟨rfl, rfl⟩

/-- C2: the claim says `deviation_check` on an ascending-sorted list accepts
iff `min >= max - max * deviation / 100` with `max` the largest and `min` the
smallest rate.  The code reads the FIRST element of the ascending list as
`max_datapoint` and the LAST as `min_datapoint` (`refresh.rs` lines 102–103),
so for rates `[50, 100]` with 5% deviation it accepts (it checks
`100 >= 50 - 2`), while the specified bound `50 >= 100 - 5` is false. -/
theorem c2_deviation_check_reads_min_as_max :
    deviation_check 5 [sampleOracleBox 50 1, sampleOracleBox 100 1] = some true
    ∧ spec_deviation_check 5 [50, 100] = false := by
  exact ⟨rfl, rfl⟩

/-- C3: the claim says that on `[100,101,102,103,200]` with 5% deviation the
check fails and the outlier step removes `200`.  In the code the deviation
check passes immediately (it checks `200 >= 100 - 5`, a consequence of the
max/min swap), so the whole list survives untouched; and
`remove_largest_local_deviation_datapoint`, were it called on that list, would
drop the SMALLEST value `100`: line 124 maps every datapoint to
`datapoint_boxes[0].rate()`, so both gaps compute to `0` and the tie branch
drains the front of the ascending list. -/
theorem c3_outlier_removal_drops_smallest :
    filtered_oracle_boxes 5 4
        [sampleOracleBox 100 1, sampleOracleBox 101 1, sampleOracleBox 102 1,
         sampleOracleBox 103 1, sampleOracleBox 200 1]
      = some (.ok
        [sampleOracleBox 100 1, sampleOracleBox 101 1, sampleOracleBox 102 1,
         sampleOracleBox 103 1, sampleOracleBox 200 1])
    ∧ remove_largest_local_deviation_datapoint
        [sampleOracleBox 100 1, sampleOracleBox 101 1, sampleOracleBox 102 1,
         sampleOracleBox 103 1, sampleOracleBox 200 1]
      = .ok
        [sampleOracleBox 101 1, sampleOracleBox 102 1, sampleOracleBox 103 1,
         sampleOracleBox 200 1] := by
  exact ⟨rfl, rfl⟩

/-- C4: the claim says every oracle box whose epoch counter differs from the
live epoch is excluded from the survivor set before the `min_data_points`
check.  `filtered_oracle_boxes` never reads the epoch counter: a box with
epoch counter `0` under live epoch `1` survives filtering and is counted. -/
theorem c4_stale_epoch_box_survives_filtering :
    (sampleOracleBox 100 0).epochCounter ≠ (1 : Int)
    ∧ filtered_oracle_boxes 5 4 [sampleOracleBox 100 0]
        = some (.ok [sampleOracleBox 100 0]) := by
  exact ⟨by decide, rfl⟩

/-- C9: the claim says wrapper construction fails (without panicking) when
required tokens are missing, and typed accessors never panic.
`BuybackBoxWrapper::new` performs no validation at all — it succeeds on every
box, including a box with no tokens — and `reward_token` on such a wrapper
panics (`tokens.as_ref().unwrap()`). -/
theorem c9_buyback_wrapper_unvalidated :
    (∀ (b : EBox) (rid : Nat),
      (BuybackBoxWrapper.new b rid).ergo_box = b
        ∧ (BuybackBoxWrapper.new b rid).reward_token_id = rid)
    ∧ (BuybackBoxWrapper.new
        { boxId := 1, value := 1000000, ergoTree := 3, tokens := none } 7).reward_token
        = .panicked := by
  exact ⟨fun b rid => ⟨rfl, rfl⟩, rfl⟩

/-- C10: in `main_loop_iteration` the pool state for a tick is derived solely
from `get_live_epoch_state`: the state is `LiveEpoch` exactly when the call
returns `Ok`, every error is mapped to `NeedsBootstrap`, and a failing
`get_live_epoch_state` never aborts the tick — the iteration proceeds into the
rest of the tick with the `NeedsBootstrap` state. -/
theorem c10_pool_state_derivation :
    (∀ (ε2 σ : Type) (r : Except ε2 σ),
      (∃ s, pool_state_for_tick r = PoolState.LiveEpoch s) ↔ ∃ s, r = .ok s)
    ∧ (∀ (ε2 σ : Type) (e : ε2),
        pool_state_for_tick (σ := σ) (.error e) = .NeedsBootstrap)
    ∧ (∀ (ε ε2 σ Cmd Action : Type) (env : TickEnv ε ε2 σ Cmd Action)
        (read_only : Bool) (e : ε2),
        main_loop_iteration { env with get_live_epoch_state := .error e } read_only
          = do
              let height ← env.current_block_height
              tick_after_state env read_only .NeedsBootstrap height) := by
  refine ⟨fun ε2 σ r => ?_, fun ε2 σ e => rfl, fun ε ε2 σ Cmd Action env ro e => ?_⟩
  · constructor
    · rintro ⟨s, hs⟩
      cases r with
      | ok a => exact ⟨a, rfl⟩
      | error e => simp [pool_state_for_tick] at hs
    · rintro ⟨s, hs⟩
      subst hs
      exact ⟨s, rfl⟩
  · cases env
    rfl

/-- C8: every surviving oracle box is re-emitted by `build_out_oracle_boxes`
with the same box value, the same guard script, the same R4 public key and the
same oracle token, with the reward-token amount increased by exactly one, and
with creation height set to the supplied height. -/
theorem c8_out_oracle_boxes_preserve_fields (boxes : List OracleBoxW)
    (creation_height : Nat) (out : List ErgoBoxCandidate)
    (hbuild : build_out_oracle_boxes boxes creation_height = some out) :
    List.Forall₂
      (fun (b : OracleBoxW) (c : ErgoBoxCandidate) =>
        c.value = b.value ∧ c.ergoTree = b.ergoTree ∧ c.R4 = some b.publicKey
          ∧ c.creationHeight = creation_height
          ∧ c.tokens = [b.oracleToken,
              { tokenId := b.rewardToken.tokenId,
                amount := b.rewardToken.amount + 1 }])
      boxes out := by
  induction boxes generalizing out with
  | nil =>
    simp only [build_out_oracle_boxes] at hbuild
    cases hbuild
    exact List.Forall₂.nil
  | cons b rest ih =>
    simp only [build_out_oracle_boxes, Option.bind_eq_bind, Option.bind] at hbuild
    cases hc : build_out_oracle_box b creation_height with
    | none => rw [hc] at hbuild; cases hbuild
    | some c =>
      rw [hc] at hbuild
      cases hcs : build_out_oracle_boxes rest creation_height with
      | none => rw [hcs] at hbuild; cases hbuild
      | some cs =>
        rw [hcs] at hbuild
        cases hbuild
        refine List.Forall₂.cons ?_ (ih cs hcs)
        unfold build_out_oracle_box at hc
        by_cases hb : b.rewardToken.amount + 1 ≤ TokenAmountMax
        · simp only [hb, if_true] at hc
          cases hc
          exact ⟨rfl, rfl, rfl, rfl, rfl⟩
        · simp [hb] at hc

/-- Witness for C8 at a concrete surviving oracle box and height 50. -/
theorem c8_out_oracle_boxes_preserve_fields_witness :
    build_out_oracle_boxes [sampleOracleBox 100 1] 50
        = some [{ value := 1000000, ergoTree := 7, creationHeight := 50,
                  R4 := some 9,
                  tokens := [{ tokenId := 11, amount := 1 },
                             { tokenId := 12, amount := 6 }] }]
    ∧ List.Forall₂
        (fun (b : OracleBoxW) (c : ErgoBoxCandidate) =>
          c.value = b.value ∧ c.ergoTree = b.ergoTree ∧ c.R4 = some b.publicKey
            ∧ c.creationHeight = 50
            ∧ c.tokens = [b.oracleToken,
                { tokenId := b.rewardToken.tokenId,
                  amount := b.rewardToken.amount + 1 }])
        [sampleOracleBox 100 1]
        [{ value := 1000000, ergoTree := 7, creationHeight := 50,
           R4 := some 9,
           tokens := [{ tokenId := 11, amount := 1 },
                      { tokenId := 12, amount := 6 }] }] :=
  ⟨rfl, c8_out_oracle_boxes_preserve_fields [sampleOracleBox 100 1] 50 _ rfl⟩

/-- In a rate-sorted non-empty list the head's rate bounds the last element's
rate from below. -/
theorem sorted_head_rate_le_getLast (b : OracleBoxW) (rest : List OracleBoxW)
    (hs : List.Sorted (fun a c => a.rate ≤ c.rate) (b :: rest)) :
    b.rate ≤ ((b :: rest).getLast (by simp)).rate := by
  cases rest with
  | nil => simp
  | cons x xs =>
    have hmem : (b :: x :: xs).getLast (by simp) ∈ x :: xs := by
      rw [List.getLast_cons (by simp)]
      exact List.getLast_mem _
    exact (List.sorted_cons.mp hs).1 _ hmem

/-- C7: for every input of at least `min_data_points` (and at most 255) oracle
boxes, the deviation-filtering loop terminates, ending either with a survivor
set that passes the code's deviation check or with the
`FailedToReachConsensus` error; and every iteration whose deviation check
fails on more than two boxes removes exactly one box.  The arithmetic side
conditions rule out the modelled `u64` panics (`deviation_range` is a
percentage and rates are far from `u64::MAX` in practice).  With the code's
`deviation_check` (see C2) the check in fact passes on the first, sorted,
iteration, so the loop exits immediately with the full sorted survivor set. -/
theorem c7_deviation_filtering_terminates
    (deviation_range min_data_points : Nat) (boxes : List OracleBoxW)
    (hrange : deviation_range ≤ 100)
    (hmul : ∀ b ∈ boxes, b.rate * deviation_range < U64Mod)
    (hmin : min_data_points ≤ boxes.length)
    (hmax : boxes.length ≤ 255)
    (hne : boxes ≠ []) :
    ((∃ survivors,
        filtered_oracle_boxes deviation_range min_data_points boxes
          = some (.ok survivors)
        ∧ deviation_check deviation_range survivors = some true)
      ∨ filtered_oracle_boxes deviation_range min_data_points boxes
          = some (.error .FailedToReachConsensus))
    ∧ (∀ current : List OracleBoxW, 2 < current.length →
        ∃ one_removed,
          remove_largest_local_deviation_datapoint current = .ok one_removed
            ∧ one_removed.length + 1 = current.length) := by
  constructor
  · left
    have hperm := List.perm_insertionSort (fun a b : OracleBoxW => a.rate ≤ b.rate) boxes
    have hsorted := List.sorted_insertionSort (fun a b : OracleBoxW => a.rate ≤ b.rate) boxes
    have hlen : (List.insertionSort (fun a b : OracleBoxW => a.rate ≤ b.rate) boxes).length
        = boxes.length := hperm.length_eq
    cases hsl : List.insertionSort (fun a b : OracleBoxW => a.rate ≤ b.rate) boxes with
    | nil =>
      exfalso
      rw [hsl] at hlen
      exact hne (List.length_eq_zero.mp hlen.symm)
    | cons b rest =>
      rw [hsl] at hsorted
      have hbmem : b ∈ boxes := hperm.mem_iff.mp (by rw [hsl]; exact List.mem_cons_self b rest)
      have hmulb : b.rate * deviation_range < U64Mod := hmul b hbmem
      have hdelta : b.rate * deviation_range / 100 ≤ b.rate := by
        calc b.rate * deviation_range / 100
            ≤ b.rate * 100 / 100 :=
              Nat.div_le_div_right (Nat.mul_le_mul_left _ hrange)
          _ = b.rate := Nat.mul_div_cancel b.rate (by norm_num)
      have hcheck : deviation_check deviation_range (b :: rest) = some true := by
        simp only [deviation_check]
        rw [if_neg (by omega)]
        rw [if_neg (by omega)]
        have hle := sorted_head_rate_le_getLast b rest hsorted
        simp only [ge_iff_le, Option.some.injEq, decide_eq_true_eq]
        exact le_trans (Nat.sub_le _ _) hle
      refine ⟨b :: rest, ?_, hcheck⟩
      simp only [filtered_oracle_boxes, hsl, filtered_loop, hcheck]
  · intro current hlen3
    unfold remove_largest_local_deviation_datapoint
    rw [if_neg (by omega)]
    dsimp only
    split
    · exact ⟨current.tail, rfl, by simp only [List.length_tail]; omega⟩
    · exact ⟨current.dropLast, rfl, by simp only [List.length_dropLast]; omega⟩

/-- Witness for C7 at four agreeing datapoints, `min_data_points = 4` and 5%
deviation (the repository defaults). -/
theorem c7_deviation_filtering_terminates_witness :
    (5 ≤ 100
      ∧ (∀ b ∈ [sampleOracleBox 100 1, sampleOracleBox 101 1,
                sampleOracleBox 102 1, sampleOracleBox 103 1],
          b.rate * 5 < U64Mod)
      ∧ 4 ≤ ([sampleOracleBox 100 1, sampleOracleBox 101 1,
              sampleOracleBox 102 1, sampleOracleBox 103 1] : List OracleBoxW).length
      ∧ ([sampleOracleBox 100 1, sampleOracleBox 101 1,
          sampleOracleBox 102 1, sampleOracleBox 103 1] : List OracleBoxW).length ≤ 255
      ∧ [sampleOracleBox 100 1, sampleOracleBox 101 1,
         sampleOracleBox 102 1, sampleOracleBox 103 1] ≠ [])
    ∧ (((∃ survivors,
          filtered_oracle_boxes 5 4
              [sampleOracleBox 100 1, sampleOracleBox 101 1,
               sampleOracleBox 102 1, sampleOracleBox 103 1]
            = some (.ok survivors)
          ∧ deviation_check 5 survivors = some true)
        ∨ filtered_oracle_boxes 5 4
            [sampleOracleBox 100 1, sampleOracleBox 101 1,
             sampleOracleBox 102 1, sampleOracleBox 103 1]
            = some (.error .FailedToReachConsensus))
      ∧ (∀ current : List OracleBoxW, 2 < current.length →
          ∃ one_removed,
            remove_largest_local_deviation_datapoint current = .ok one_removed
              ∧ one_removed.length + 1 = current.length)) :=
  ⟨⟨by decide, by decide, by decide, by decide, by decide⟩,
   c7_deviation_filtering_terminates 5 4
     [sampleOracleBox 100 1, sampleOracleBox 101 1,
      sampleOracleBox 102 1, sampleOracleBox 103 1]
     (by decide) (by decide) (by decide) (by decide) (by decide)⟩

theorem bind_run_ok {α β : Type} (x : BootM α) (f : α → BootM β)
    {s : List BootstrapEvent} {a : α} {s2 : List BootstrapEvent}
    (hx : x.run s = .ok a s2) :
    (x >>= f).run s = (f a).run s2 := by
  show EStateM.bind x f s = (f a).run s2
  unfold EStateM.bind
  have hx2 : x s = .ok a s2 := hx
  rw [hx2]
  rfl

theorem bind_run_error {α β : Type} (x : BootM α) (f : α → BootM β)
    {s : List BootstrapEvent} {e : BootstrapError} {s2 : List BootstrapEvent}
    (hx : x.run s = .error e s2) :
    (x >>= f).run s = .error e s2 := by
  show EStateM.bind x f s = .error e s2
  unfold EStateM.bind
  have hx2 : x s = .error e s2 := hx
  rw [hx2]

theorem liftE_bind_run {α β : Type} (x : Except BootstrapError α)
    (f : α → BootM β) (s : List BootstrapEvent) :
    (liftE x >>= f).run s =
      match x with
      | .ok a => (f a).run s
      | .error e => .error e s := by
  cases x <;> rfl

theorem liftE_run {α : Type} (x : Except BootstrapError α)
    (s : List BootstrapEvent) :
    (liftE x).run s =
      match x with
      | .ok a => .ok a s
      | .error e => .error e s := by
  cases x <;> rfl

theorem pure_run {α : Type} (a : α) (s : List BootstrapEvent) :
    (pure a : BootM α).run s = .ok a s := rfl

theorem sign_tx_bind_run {β : Type} (env : BootstrapEnv) (i : Nat)
    (u : UnsignedTx) (f : SignedTx → BootM β) (s : List BootstrapEvent) :
    (sign_tx env i u >>= f).run s =
      if env.sign_ok i then (f (realize_outputs i u)).run (s ++ [.signed i])
      else .error .Node s := by
  by_cases h : env.sign_ok i <;>
    simp [sign_tx, h, EStateM.run, Bind.bind, EStateM.bind]

theorem submit_bind_run {β : Type} (env : BootstrapEnv) (i : Nat) (tx : SignedTx)
    (f : Unit → BootM β) (s : List BootstrapEvent) :
    (submit_transaction env i tx >>= f).run s =
      if env.submit_ok i then (f ()).run (s ++ [.submitted i])
      else .error .Node s := by
  by_cases h : env.submit_ok i <;>
    simp [submit_transaction, h, EStateM.run, Bind.bind, EStateM.bind]

theorem box_value_checked_mul_u32_ok {v n r : Nat}
    (h : box_value_checked_mul_u32 v n = .ok r) : r = v * n := by
  unfold box_value_checked_mul_u32 at h
  split at h
  · cases h; rfl
  · cases h

theorem box_value_checked_add_ok {a b r : Nat}
    (h : box_value_checked_add a b = .ok r) : r = a + b := by
  unfold box_value_checked_add at h
  split at h
  · cases h; rfl
  · cases h

theorem calc_target_balance_ok {ctx : MintContext} {n tb : Nat}
    (h : calc_target_balance ctx n = .ok tb) :
    tb = ctx.erg_value_per_box * n + ctx.tx_fee * n := by
  unfold calc_target_balance at h
  cases h1 : box_value_checked_mul_u32 ctx.erg_value_per_box n with
  | error e => rw [h1] at h; simp [Bind.bind, Except.bind] at h
  | ok b =>
    rw [h1] at h
    cases h2 : box_value_checked_mul_u32 ctx.tx_fee n with
    | error e => rw [h2] at h; simp [Bind.bind, Except.bind] at h
    | ok fees =>
      rw [h2] at h
      simp only [Bind.bind, Except.bind] at h
      have hb := box_value_checked_mul_u32_ok h1
      have hf := box_value_checked_mul_u32_ok h2
      have ha := box_value_checked_add_ok h
      omega

theorem tx_builder_build_ok {fee chg : Nat} {sel : List EBox}
    {cands : List ErgoBoxCandidate} {h : Nat} {u : UnsignedTx}
    (hb : tx_builder_build fee chg sel cands h = .ok u) :
    u.inputs = sel ∧ u.output_candidates = cands := by
  unfold tx_builder_build at hb
  dsimp only at hb
  split at hb
  · cases hb
  · injection hb with hb2
    rw [← hb2]
    exact ⟨rfl, rfl⟩

/-- C6 (amended): each successful mint step selects inputs to the target
balance `E(i) = i * (erg_value_per_box + tx_fee)`, emits exactly two non-fee
output candidates — a token box of value `erg_value_per_box` carrying the
REQUESTED amount `token_amount` of the newly minted token (whose id is the
first selected box's id), and a remainder box of value `E(i-1)` guarded by the
funding wallet key — and decrements the remaining-transaction counter by
exactly one.  (The original claim's "exactly one unit" only holds for the NFT
mints, where `token_amount = 1`; see the counterexample.) -/
theorem c6_mint_step_amended (env : BootstrapEnv) (ctx : MintContext)
    (input_boxes : List EBox) (n token_amount : Nat) (g : Option Nat)
    (s s2 : List BootstrapEvent) (tok : Token) (tx : SignedTx) (n2 : Nat)
    (hn : 1 ≤ n)
    (hrun : (mint_token env ctx input_boxes n token_amount g).run s
      = .ok (tok, tx, n2) s2) :
    n2 + 1 = n
    ∧ tok.amount = token_amount
    ∧ (∃ first rest,
        select_boxes input_boxes (ctx.erg_value_per_box * n + ctx.tx_fee * n) []
          = .ok (first :: rest)
        ∧ tx.inputs = first :: rest
        ∧ tok.tokenId = first.boxId)
    ∧ tx.output_candidates =
        [{ value := ctx.erg_value_per_box,
           ergoTree := g.getD ctx.wallet_pk_ergo_tree,
           creationHeight := ctx.height, R4 := none, tokens := [tok] },
         { value := ctx.erg_value_per_box * (n - 1) + ctx.tx_fee * (n - 1),
           ergoTree := ctx.wallet_pk_ergo_tree,
           creationHeight := ctx.height, R4 := none, tokens := [] }] := by
  unfold mint_token at hrun
  rw [liftE_bind_run] at hrun
  cases hc1 : calc_target_balance ctx n with
  | error e => rw [hc1] at hrun; cases hrun
  | ok tb =>
    rw [hc1] at hrun
    simp only [liftE_bind_run] at hrun
    cases hsel : select_boxes input_boxes tb [] with
    | error e => rw [hsel] at hrun; cases hrun
    | ok selected =>
      rw [hsel] at hrun
      cases selected with
      | nil => simp [liftE_run] at hrun
      | cons first rest =>
        simp only [liftE_bind_run] at hrun
        cases hc2 : calc_target_balance ctx (n - 1) with
        | error e => rw [hc2] at hrun; cases hrun
        | ok rv =>
          rw [hc2] at hrun
          simp only [liftE_bind_run] at hrun
          cases hbld : tx_builder_build ctx.tx_fee ctx.change_address
              (first :: rest)
              [{ value := ctx.erg_value_per_box,
                 ergoTree := g.getD ctx.wallet_pk_ergo_tree,
                 creationHeight := ctx.height, R4 := none,
                 tokens := [{ tokenId := first.boxId, amount := token_amount }] },
               { value := rv, ergoTree := ctx.wallet_pk_ergo_tree,
                 creationHeight := ctx.height, R4 := none, tokens := [] }]
              ctx.height with
          | error e => rw [hbld] at hrun; cases hrun
          | ok u =>
            rw [hbld] at hrun
            simp only [sign_tx_bind_run, pure_run] at hrun
            by_cases hsig : env.sign_ok (8 - n)
            · rw [if_pos hsig] at hrun
              injection hrun with h1 h2
              injection h1 with htok h1
              injection h1 with htx hn2
              subst htok
              subst htx
              subst hn2
              have htb := calc_target_balance_ok hc1
              have hrv := calc_target_balance_ok hc2
              subst htb
              subst hrv
              have hu := tx_builder_build_ok hbld
              refine ⟨by omega, rfl, ⟨first, rest, hsel, ?_, rfl⟩, ?_⟩
              · show (realize_outputs (8 - n) u).inputs = first :: rest
                rw [show (realize_outputs (8 - n) u).inputs = u.inputs from rfl]
                exact hu.1
              · show (realize_outputs (8 - n) u).output_candidates = _
                rw [show (realize_outputs (8 - n) u).output_candidates
                  = u.output_candidates from rfl]
                exact hu.2
            · rw [if_neg hsig] at hrun; cases hrun

/-- Trace shape of one mint step: it either fails leaving the trace unchanged
— no event is recorded before the wallet signs — or succeeds, decrementing the
counter and appending exactly the signing event of transaction
`8 - num_transactions_left`. -/
theorem mint_token_run (env : BootstrapEnv) (ctx : MintContext)
    (input_boxes : List EBox) (n token_amount : Nat) (g : Option Nat)
    (s : List BootstrapEvent) :
    (∃ e, (mint_token env ctx input_boxes n token_amount g).run s = .error e s)
    ∨ (∃ tok tx, (mint_token env ctx input_boxes n token_amount g).run s
        = .ok (tok, tx, n - 1) (s ++ [.signed (8 - n)])) := by
  unfold mint_token
  rw [liftE_bind_run]
  cases hc1 : calc_target_balance ctx n with
  | error e => exact Or.inl ⟨e, rfl⟩
  | ok tb =>
    dsimp only
    rw [liftE_bind_run]
    cases hsel : select_boxes input_boxes tb [] with
    | error e => exact Or.inl ⟨e, rfl⟩
    | ok selected =>
      dsimp only
      cases selected with
      | nil => exact Or.inl ⟨.BoxSelector, rfl⟩
      | cons first rest =>
        dsimp only
        rw [liftE_bind_run]
        cases hc2 : calc_target_balance ctx (n - 1) with
        | error e => exact Or.inl ⟨e, rfl⟩
        | ok rv =>
          dsimp only
          rw [liftE_bind_run]
          cases hbld : tx_builder_build ctx.tx_fee ctx.change_address
              (first :: rest)
              [{ value := ctx.erg_value_per_box,
                 ergoTree := g.getD ctx.wallet_pk_ergo_tree,
                 creationHeight := ctx.height, R4 := none,
                 tokens := [{ tokenId := first.boxId, amount := token_amount }] },
               { value := rv, ergoTree := ctx.wallet_pk_ergo_tree,
                 creationHeight := ctx.height, R4 := none, tokens := [] }]
              ctx.height with
          | error e => exact Or.inl ⟨e, rfl⟩
          | ok u =>
            dsimp only
            rw [sign_tx_bind_run]
            by_cases hsig : env.sign_ok (8 - n)
            · rw [if_pos hsig]
              exact Or.inr ⟨{ tokenId := first.boxId, amount := token_amount },
                realize_outputs (8 - n) u, rfl⟩
            · rw [if_neg hsig]
              exact Or.inl ⟨.Node, rfl⟩

theorem run_bind {α β : Type} (x : BootM α) (f : α → BootM β)
    (s : List BootstrapEvent) :
    (x >>= f).run s =
      match x.run s with
      | .ok a s2 => (f a).run s2
      | .error e s2 => .error e s2 := by
  cases hx : x.run s with
  | ok a s2 => rw [bind_run_ok _ _ hx]
  | error e s2 => rw [bind_run_error _ _ hx]

theorem mint_token_run_ok {env : BootstrapEnv} {ctx : MintContext}
    {input_boxes : List EBox} {n token_amount : Nat} {g : Option Nat}
    {s : List BootstrapEvent} {a : Token × SignedTx × Nat}
    {s2 : List BootstrapEvent}
    (h : (mint_token env ctx input_boxes n token_amount g).run s = .ok a s2) :
    a.2.2 = n - 1 ∧ s2 = s ++ [.signed (8 - n)] := by
  rcases mint_token_run env ctx input_boxes n token_amount g s with
    ⟨e, hx⟩ | ⟨tok, tx, hx⟩
  · rw [h] at hx; cases hx
  · rw [h] at hx
    injection hx with h1 h2
    subst h2
    rw [h1]
    exact ⟨rfl, rfl⟩

theorem mint_token_run_error {env : BootstrapEnv} {ctx : MintContext}
    {input_boxes : List EBox} {n token_amount : Nat} {g : Option Nat}
    {s : List BootstrapEvent} {e : BootstrapError} {s2 : List BootstrapEvent}
    (h : (mint_token env ctx input_boxes n token_amount g).run s = .error e s2) :
    s2 = s := by
  rcases mint_token_run env ctx input_boxes n token_amount g s with
    ⟨e2, hx⟩ | ⟨tok, tx, hx⟩
  · rw [h] at hx
    injection hx
  · rw [h] at hx; cases hx

/-- Counterexample to C6 as stated: a successful mint step with
`token_amount = 15` (as the ballot- and oracle-token mints perform, with the
quantity taken from the bootstrap configuration) emits a token box carrying 15
units of the newly minted token, not exactly one unit. -/
theorem c6_counterexample_token_box_amount :
    (mint_token sampleBootstrapEnv sampleMintContext [sampleFundingBox]
        8 15 none).run []
      = .ok
          ({ tokenId := 5, amount := 15 },
           { inputs := [sampleFundingBox]
             output_candidates :=
               [{ value := 1000000, ergoTree := 1, creationHeight := 10,
                  R4 := none, tokens := [{ tokenId := 5, amount := 15 }] },
                { value := 14000000, ergoTree := 1, creationHeight := 10,
                  R4 := none, tokens := [] }]
             change_candidates := []
             fee_candidate :=
               { value := 1000000, ergoTree := FeeErgoTree,
                 creationHeight := 10, R4 := none, tokens := [] }
             outputs :=
               [{ boxId := 1000, value := 1000000, ergoTree := 1,
                  tokens := some [{ tokenId := 5, amount := 15 }] },
                { boxId := 1001, value := 14000000, ergoTree := 1,
                  tokens := none },
                { boxId := 1002, value := 1000000, ergoTree := FeeErgoTree,
                  tokens := none }] },
           7)
          [.signed 0]
    ∧ (15 : Nat) ≠ 1 := by
  exact ⟨rfl, by decide⟩

/-- Witness for the amended C6 at the concrete all-success environment. -/
theorem c6_mint_step_amended_witness :
    (1 : Nat) ≤ 8
    ∧ (7 + 1 = 8
      ∧ (15 : Nat) = 15
      ∧ (∃ first rest,
          select_boxes [sampleFundingBox]
              (sampleMintContext.erg_value_per_box * 8 + sampleMintContext.tx_fee * 8) []
            = .ok (first :: rest)
          ∧ [sampleFundingBox] = first :: rest
          ∧ (5 : Nat) = first.boxId)
      ∧ ([{ value := sampleMintContext.erg_value_per_box,
            ergoTree := (none : Option Nat).getD sampleMintContext.wallet_pk_ergo_tree,
            creationHeight := sampleMintContext.height, R4 := none,
            tokens := [{ tokenId := 5, amount := 15 }] },
          { value := sampleMintContext.erg_value_per_box * (8 - 1)
              + sampleMintContext.tx_fee * (8 - 1),
            ergoTree := sampleMintContext.wallet_pk_ergo_tree,
            creationHeight := sampleMintContext.height, R4 := none,
            tokens := [] }] : List ErgoBoxCandidate)
          = [{ value := sampleMintContext.erg_value_per_box,
               ergoTree := (none : Option Nat).getD sampleMintContext.wallet_pk_ergo_tree,
               creationHeight := sampleMintContext.height, R4 := none,
               tokens := [{ tokenId := 5, amount := 15 }] },
             { value := sampleMintContext.erg_value_per_box * (8 - 1)
                 + sampleMintContext.tx_fee * (8 - 1),
               ergoTree := sampleMintContext.wallet_pk_ergo_tree,
               creationHeight := sampleMintContext.height, R4 := none,
               tokens := [] }]) := by
  constructor
  · decide
  · have h := c6_mint_step_amended sampleBootstrapEnv sampleMintContext
      [sampleFundingBox] 8 15 none [] [.signed 0]
      { tokenId := 5, amount := 15 }
      { inputs := [sampleFundingBox]
        output_candidates :=
          [{ value := 1000000, ergoTree := 1, creationHeight := 10,
             R4 := none, tokens := [{ tokenId := 5, amount := 15 }] },
           { value := 14000000, ergoTree := 1, creationHeight := 10,
             R4 := none, tokens := [] }]
        change_candidates := []
        fee_candidate :=
          { value := 1000000, ergoTree := FeeErgoTree,
            creationHeight := 10, R4 := none, tokens := [] }
        outputs :=
          [{ boxId := 1000, value := 1000000, ergoTree := 1,
             tokens := some [{ tokenId := 5, amount := 15 }] },
           { boxId := 1001, value := 14000000, ergoTree := 1,
             tokens := none },
           { boxId := 1002, value := 1000000, ergoTree := FeeErgoTree,
             tokens := none }] }
      7 (by decide) rfl
    obtain ⟨h1, h2, ⟨first, rest, hs1, hs2, hs3⟩, h4⟩ := h
    exact ⟨h1, h2, ⟨first, rest, hs1, hs2, hs3⟩, rfl⟩

/-- C5: for every environment, the trace of
`perform_bootstrap_chained_transaction` consists of `m ≤ 8` signing events (in
creation order) followed by `k ≤ 8` submission events in the fixed
mint/pool/refresh order, where submissions can only occur once all eight
transactions are signed (`k = 0` unless `m = 8`); in particular any assembly
or signing failure — e.g. funding below `E(8)` — aborts with zero
transactions submitted, and a successful run signs all eight and submits all
eight. -/
theorem c5_bootstrap_submissions_after_all_signatures
    (env : BootstrapEnv) (cfg : BootstrapConfigM)
    (tx_fee erg_value_per_box change_address height : Nat) :
    ∃ m k, m ≤ 8 ∧ k ≤ 8 ∧ (k = 0 ∨ m = 8)
      ∧ result_trace ((perform_bootstrap_chained_transaction env cfg tx_fee
          erg_value_per_box change_address height).run [])
          = signed_events m ++ submitted_events k
      ∧ ((∃ e s2, (perform_bootstrap_chained_transaction env cfg tx_fee
            erg_value_per_box change_address height).run [] = .error e s2)
        ∨ (m = 8 ∧ k = 8 ∧ ∃ fields,
            (perform_bootstrap_chained_transaction env cfg tx_fee
              erg_value_per_box change_address height).run []
              = .ok fields (signed_events 8 ++ submitted_events 8))) := by
  unfold perform_bootstrap_chained_transaction
  try dsimp only
  -- target balance E(8)
  rw [liftE_bind_run]; split
  swap
  · exact ⟨0, 0, by omega, by omega, Or.inl rfl, rfl, Or.inl ⟨_, _, rfl⟩⟩
  try dsimp only
  -- top-level box selection
  rw [liftE_bind_run]; split
  swap
  · exact ⟨0, 0, by omega, by omega, Or.inl rfl, rfl, Or.inl ⟨_, _, rfl⟩⟩
  try dsimp only
  -- mint 0: pool NFT
  rw [run_bind]; split
  swap
  · rename_i e s2 heq
    rw [mint_token_run_error heq]
    exact ⟨0, 0, by omega, by omega, Or.inl rfl, rfl, Or.inl ⟨_, _, rfl⟩⟩
  rename_i a s2 heq
  obtain ⟨hcnt, hs2⟩ := mint_token_run_ok heq
  subst hs2
  obtain ⟨tok0, tx0, n7⟩ := a
  dsimp only at hcnt
  subst hcnt
  try dsimp only
  -- mint 1: refresh NFT
  rw [run_bind]; split
  swap
  · rename_i e s2 heq1
    rw [mint_token_run_error heq1]
    exact ⟨1, 0, by omega, by omega, Or.inl rfl, rfl, Or.inl ⟨_, _, rfl⟩⟩
  rename_i a s2 heq1
  obtain ⟨hcnt, hs2⟩ := mint_token_run_ok heq1
  subst hs2
  obtain ⟨tok1, tx1, n6⟩ := a
  dsimp only at hcnt
  subst hcnt
  try dsimp only
  -- mint 2: ballot tokens
  rw [run_bind]; split
  swap
  · rename_i e s2 heq2
    rw [mint_token_run_error heq2]
    exact ⟨2, 0, by omega, by omega, Or.inl rfl, rfl, Or.inl ⟨_, _, rfl⟩⟩
  rename_i a s2 heq2
  obtain ⟨hcnt, hs2⟩ := mint_token_run_ok heq2
  subst hs2
  obtain ⟨tok2, tx2, n5⟩ := a
  dsimp only at hcnt
  subst hcnt
  try dsimp only
  -- UpdateContract::new
  rw [liftE_bind_run]; split
  swap
  · exact ⟨3, 0, by omega, by omega, Or.inl rfl, rfl, Or.inl ⟨_, _, rfl⟩⟩
  try dsimp only
  -- mint 3: update NFT
  rw [run_bind]; split
  swap
  · rename_i e s2 heq3
    rw [mint_token_run_error heq3]
    exact ⟨3, 0, by omega, by omega, Or.inl rfl, rfl, Or.inl ⟨_, _, rfl⟩⟩
  rename_i a s2 heq3
  obtain ⟨hcnt, hs2⟩ := mint_token_run_ok heq3
  subst hs2
  obtain ⟨tok3, tx3, n4⟩ := a
  dsimp only at hcnt
  subst hcnt
  try dsimp only
  -- mint 4: oracle tokens
  rw [run_bind]; split
  swap
  · rename_i e s2 heq4
    rw [mint_token_run_error heq4]
    exact ⟨4, 0, by omega, by omega, Or.inl rfl, rfl, Or.inl ⟨_, _, rfl⟩⟩
  rename_i a s2 heq4
  obtain ⟨hcnt, hs2⟩ := mint_token_run_ok heq4
  subst hs2
  obtain ⟨tok4, tx4, n3⟩ := a
  dsimp only at hcnt
  subst hcnt
  try dsimp only
  -- mint 5: reward tokens
  rw [run_bind]; split
  swap
  · rename_i e s2 heq5
    rw [mint_token_run_error heq5]
    exact ⟨5, 0, by omega, by omega, Or.inl rfl, rfl, Or.inl ⟨_, _, rfl⟩⟩
  rename_i a s2 heq5
  obtain ⟨hcnt, hs2⟩ := mint_token_run_ok heq5
  subst hs2
  obtain ⟨tok5, tx5, n2⟩ := a
  dsimp only at hcnt
  subst hcnt
  try dsimp only
  -- reward_token.amount.checked_sub(..).unwrap()
  rw [liftE_bind_run]; split
  swap
  · exact ⟨6, 0, by omega, by omega, Or.inl rfl, rfl, Or.inl ⟨_, _, rfl⟩⟩
  try dsimp only
  -- remaining funds E(n2 - 1)
  rw [liftE_bind_run]; split
  swap
  · exact ⟨6, 0, by omega, by omega, Or.inl rfl, rfl, Or.inl ⟨_, _, rfl⟩⟩
  try dsimp only
  -- target balance E(n2)
  rw [liftE_bind_run]; split
  swap
  · exact ⟨6, 0, by omega, by omega, Or.inl rfl, rfl, Or.inl ⟨_, _, rfl⟩⟩
  try dsimp only
  -- find box with pool NFT
  rw [liftE_bind_run]; split
  swap
  · exact ⟨6, 0, by omega, by omega, Or.inl rfl, rfl, Or.inl ⟨_, _, rfl⟩⟩
  try dsimp only
  -- pool box selection
  rw [liftE_bind_run]; split
  swap
  · exact ⟨6, 0, by omega, by omega, Or.inl rfl, rfl, Or.inl ⟨_, _, rfl⟩⟩
  try dsimp only
  -- pool tx build
  rw [liftE_bind_run]; split
  swap
  · exact ⟨6, 0, by omega, by omega, Or.inl rfl, rfl, Or.inl ⟨_, _, rfl⟩⟩
  try dsimp only
  -- pool tx sign (index 6)
  rw [sign_tx_bind_run]; split
  swap
  · exact ⟨6, 0, by omega, by omega, Or.inl rfl, rfl, Or.inl ⟨_, _, rfl⟩⟩
  try dsimp only
  -- target balance E(n1)
  rw [liftE_bind_run]; split
  swap
  · exact ⟨7, 0, by omega, by omega, Or.inl rfl, rfl, Or.inl ⟨_, _, rfl⟩⟩
  try dsimp only
  -- find box with refresh NFT
  rw [liftE_bind_run]; split
  swap
  · exact ⟨7, 0, by omega, by omega, Or.inl rfl, rfl, Or.inl ⟨_, _, rfl⟩⟩
  try dsimp only
  -- refresh box selection
  rw [liftE_bind_run]; split
  swap
  · exact ⟨7, 0, by omega, by omega, Or.inl rfl, rfl, Or.inl ⟨_, _, rfl⟩⟩
  try dsimp only
  -- refresh tx build
  rw [liftE_bind_run]; split
  swap
  · exact ⟨7, 0, by omega, by omega, Or.inl rfl, rfl, Or.inl ⟨_, _, rfl⟩⟩
  try dsimp only
  -- refresh tx sign (index 7)
  rw [sign_tx_bind_run]; split
  swap
  · exact ⟨7, 0, by omega, by omega, Or.inl rfl, rfl, Or.inl ⟨_, _, rfl⟩⟩
  try dsimp only
  -- submit 0
  rw [submit_bind_run]; split
  swap
  · exact ⟨8, 0, by omega, by omega, Or.inr rfl, rfl, Or.inl ⟨_, _, rfl⟩⟩
  try dsimp only
  -- submit 1
  rw [submit_bind_run]; split
  swap
  · exact ⟨8, 1, by omega, by omega, Or.inr rfl, rfl, Or.inl ⟨_, _, rfl⟩⟩
  try dsimp only
  -- submit 2
  rw [submit_bind_run]; split
  swap
  · exact ⟨8, 2, by omega, by omega, Or.inr rfl, rfl, Or.inl ⟨_, _, rfl⟩⟩
  try dsimp only
  -- submit 3
  rw [submit_bind_run]; split
  swap
  · exact ⟨8, 3, by omega, by omega, Or.inr rfl, rfl, Or.inl ⟨_, _, rfl⟩⟩
  try dsimp only
  -- submit 4
  rw [submit_bind_run]; split
  swap
  · exact ⟨8, 4, by omega, by omega, Or.inr rfl, rfl, Or.inl ⟨_, _, rfl⟩⟩
  try dsimp only
  -- submit 5
  rw [submit_bind_run]; split
  swap
  · exact ⟨8, 5, by omega, by omega, Or.inr rfl, rfl, Or.inl ⟨_, _, rfl⟩⟩
  try dsimp only
  -- submit 6
  rw [submit_bind_run]; split
  swap
  · exact ⟨8, 6, by omega, by omega, Or.inr rfl, rfl, Or.inl ⟨_, _, rfl⟩⟩
  try dsimp only
  -- submit 7
  rw [submit_bind_run]; split
  swap
  · exact ⟨8, 7, by omega, by omega, Or.inr rfl, rfl, Or.inl ⟨_, _, rfl⟩⟩
  try dsimp only
  -- success
  exact ⟨8, 8, by omega, by omega, Or.inr rfl, rfl, Or.inr ⟨rfl, rfl, _, rfl⟩⟩


end OracleCore
